import Mathlib

/-!
Verification of the Viewer Fit-and-Frame Controller of the prinjekt
storefront widget.

The repository contains two near-duplicate camera-fit implementations:
* `fitCameraToModel` in `src/assets/configurator.js` (lines 528-544), here
  embedded as `cfgFitCameraToModel`;
* `_fitCameraToModel` in the unnamed master file `src/unnamed/part_000`
  (lines 1049-1081), here embedded as `p0FitCameraToModel`;
plus the two resize handlers (`onWindowResize` in configurator.js,
`handleResize` in part_000) and the STL-load centering/scaling step
(`loadSTLModel`, configurator.js lines 494-503).

Modelling choices:
* Machine floats are embedded as exact rationals `ℚ`; the single
  transcendental call `Math.tan(fov/2)` is abstracted by its value
  `t : ℚ` (any positive vertical FOV below 180 degrees corresponds to a
  positive `t`).
* JavaScript division `width/height` can produce `Infinity`, `-Infinity`
  or `NaN` when `height = 0`; since `part_000` branches on
  `isNaN(aspect) || aspect === 0` and on `aspect > 1`, that division is
  embedded faithfully via the type `JsNum` and `jsDiv`.
* A renderable model is represented by its world-space axis-aligned
  bounding box (`THREE.Box3().setFromObject(model)` is the only query the
  fit code makes of the model).
* The camera pose is `{position, lookAtTarget}` plus the orbit-controls
  target, exactly the state the fit code mutates.
-/

/-- A 3-component vector (THREE.Vector3) with exact rational coordinates. -/
structure Vec3 where
  x : ℚ
  y : ℚ
  z : ℚ
deriving DecidableEq, Repr

/-- An axis-aligned bounding box (THREE.Box3). -/
structure Box3 where
  min : Vec3
  max : Vec3
deriving DecidableEq, Repr

/-- The source's `box.getSize(...)`: `max - min`, componentwise. -/
def boxSize (b : Box3) : Vec3 :=
  ⟨b.max.x - b.min.x, b.max.y - b.min.y, b.max.z - b.min.z⟩

/-- The source's `box.getCenter(...)`: `(min + max) / 2`, componentwise. -/
def boxCenter (b : Box3) : Vec3 :=
  ⟨(b.min.x + b.max.x) / 2, (b.min.y + b.max.y) / 2, (b.min.z + b.max.z) / 2⟩

/-- The value `Math.max(size.x, size.y, size.z)` for a box's size vector. -/
def boxMaxDim (b : Box3) : ℚ :=
  max (boxSize b).x (max (boxSize b).y (boxSize b).z)

/-- The result of a JavaScript floating-point division, keeping the
special values that the source code branches on. -/
inductive JsNum where
  | nan : JsNum
  | posInf : JsNum
  | negInf : JsNum
  | fin : ℚ → JsNum
deriving DecidableEq, Repr

/-- JavaScript division `w / h` (exact where finite): for `h = 0` it
yields `NaN` when `w = 0` and a signed infinity otherwise. -/
def jsDiv (w h : ℚ) : JsNum :=
  if h = 0 then
    if w = 0 then JsNum.nan
    else if 0 < w then JsNum.posInf
    else JsNum.negInf
  else JsNum.fin (w / h)

/-- JavaScript `isNaN(a)`. -/
def jsIsNaN : JsNum → Bool
  | JsNum.nan => true
  | _ => false

/-- JavaScript `a === 0`. -/
def jsEqZero : JsNum → Bool
  | JsNum.fin q => q == 0
  | _ => false

/-- JavaScript `a > 1` (false on `NaN`, true on `+Infinity`). -/
def jsGtOne : JsNum → Bool
  | JsNum.posInf => true
  | JsNum.fin q => 1 < q
  | _ => false

/-- The rational carried by a finite `JsNum` (the non-finite cases are
unreachable where this is used: the `2 * aspect` branch of the fit runs
only when `aspect` is finite, since `clientWidth`/`clientHeight` are
non-negative and the `NaN`/zero guard has already fired). -/
def jsFinToQ : JsNum → ℚ
  | JsNum.fin q => q
  | _ => 0

/-- The camera pose together with the orbit-controls target: exactly the
state mutated by the fit operation. -/
structure CameraState where
  position : Vec3
  lookTarget : Vec3
  controlsTarget : Vec3
deriving DecidableEq, Repr

/-- The camera offset computed by `fitCameraToModel` in configurator.js:
`Math.abs(maxDim / 2 / Math.tan(fov / 2))` then `*= 1.5`. -/
def cfgCameraZ (maxDim t : ℚ) : ℚ :=
  |maxDim / 2 / t| * (3 / 2)

/-- The method `fitCameraToModel()` from `src/assets/configurator.js`:
```
if (!this.model) return;
const box = new THREE.Box3().setFromObject(this.model);
const size = box.getSize(...); const center = box.getCenter(...);
const maxDim = Math.max(size.x, size.y, size.z);
const fov = this.camera.fov * (Math.PI / 180);
let cameraZ = Math.abs(maxDim / 2 / Math.tan(fov / 2));
cameraZ *= 1.5;
this.camera.position.set(center.x, center.y, center.z + cameraZ);
this.camera.lookAt(center);
this.controls.target.copy(center);
```
The model is given by its world bounding box; `t` is the value of
`Math.tan(fov / 2)`. -/
def cfgFitCameraToModel (model : Option Box3) (t : ℚ)
    (st : CameraState) : CameraState :=
  match model with
  | none => st
  | some box =>
    let center := boxCenter box
    let cameraZ := cfgCameraZ (boxMaxDim box) t
    { position := ⟨center.x, center.y, center.z + cameraZ⟩
      lookTarget := center
      controlsTarget := center }

/-- The camera offset computed by `_fitCameraToModel` in part_000:
`Math.abs((maxDim / (aspect > 1 ? 2 : 2 * aspect)) / Math.tan(fov / 2))`
then `*= 1.5`. -/
def p0CameraZ (maxDim : ℚ) (aspect : JsNum) (t : ℚ) : ℚ :=
  |maxDim / (if jsGtOne aspect then 2 else 2 * jsFinToQ aspect) / t| * (3 / 2)

/-- The method `_fitCameraToModel(model)` from `src/unnamed/part_000`:
```
if (!model || !this.camera || !this.controls || !this.renderer) return;
const box = new window.THREE.Box3().setFromObject(model);
const size = box.getSize(...); const center = box.getCenter(...);
const maxDim = Math.max(size.x, size.y, size.z);
const fov = this.camera.fov * (Math.PI / 180);
const aspect = this.renderer.domElement.clientWidth /
               this.renderer.domElement.clientHeight;
if (isNaN(aspect) || aspect === 0) return;
let cameraZ = Math.abs((maxDim / (aspect > 1 ? 2 : 2 * aspect)) / Math.tan(fov / 2));
cameraZ *= 1.5;
this.camera.position.set(cameraZ, cameraZ * 0.7, cameraZ);
let targetY = center.y;
this.camera.lookAt(center.x, targetY, center.z);
this.controls.target.set(center.x, targetY, center.z);
```
`ready` stands for `this.camera && this.controls && this.renderer`;
`w`/`h` are the renderer canvas `clientWidth`/`clientHeight` and `t` is
the value of `Math.tan(fov / 2)`.  (`targetY` is never modified after its
initialisation — the mobile upper-third shift is absent — so the look-at
point is exactly `center`.) -/
def p0FitCameraToModel (model : Option Box3) (ready : Bool) (t w h : ℚ)
    (st : CameraState) : CameraState :=
  match model with
  | none => st
  | some box =>
    if ready = false then st
    else
      let center := boxCenter box
      let aspect := jsDiv w h
      if jsIsNaN aspect || jsEqZero aspect then st
      else
        let cameraZ := p0CameraZ (boxMaxDim box) aspect t
        { position := ⟨cameraZ, cameraZ * (7 / 10), cameraZ⟩
          lookTarget := center
          controlsTarget := center }

/-- Viewer state touched by the resize handlers: the camera pose, the
camera's projection aspect, the renderer canvas size and the currently
loaded model. -/
structure ViewerState where
  cam : CameraState
  cameraAspect : JsNum
  rendW : ℚ
  rendH : ℚ
  currentModel : Option Box3
deriving DecidableEq, Repr

/-- The method `onWindowResize()` from `src/assets/configurator.js`:
```
const canvas = this.elements.canvas;
this.camera.aspect = canvas.clientWidth / canvas.clientHeight;
this.camera.updateProjectionMatrix();
this.renderer.setSize(canvas.clientWidth, canvas.clientHeight);
```
It updates the projection and renderer size only: the camera pose and the
fit are untouched. -/
def cfgOnWindowResize (canvasW canvasH : ℚ) (s : ViewerState) : ViewerState :=
  { s with
    cameraAspect := jsDiv canvasW canvasH
    rendW := canvasW
    rendH := canvasH }

/-- The handler `handleResize` from `src/unnamed/part_000`:
```
const width = this.canvas.clientWidth;
const height = this.canvas.clientHeight;
if (width === 0 || height === 0) return;
this.camera.aspect = width / height;
this.camera.updateProjectionMatrix();
this.renderer.setSize(width, height);
this._fitCameraToModel(this.currentModel);
```
After `setSize`, `_fitCameraToModel` reads the renderer canvas size, i.e.
the just-set `canvasW`/`canvasH`. -/
def p0HandleResize (canvasW canvasH t : ℚ) (s : ViewerState) : ViewerState :=
  if canvasW = 0 ∨ canvasH = 0 then s
  else
    { cam := p0FitCameraToModel s.currentModel true t canvasW canvasH s.cam
      cameraAspect := jsDiv canvasW canvasH
      rendW := canvasW
      rendH := canvasH
      currentModel := s.currentModel }

/-- The camera-distance formula as the spec states it:
`|maxDim / (aspect > 1 ? 2 : 2*aspect) / tan(fovRad/2)|` followed by the
fixed `1.5` padding, for a finite aspect ratio `a`. -/
def specFitDistance (maxDim a t : ℚ) : ℚ :=
  |maxDim / (if 1 < a then 2 else 2 * a) / t| * (3 / 2)

/-- The view frustum of a perspective camera positioned at `camPos`
looking along `-z` (the configuration `fitCameraToModel` in
configurator.js produces: position = center + (0,0,cameraZ), lookAt
center), with vertical half-angle tangent `t` and aspect `a`: a point is
inside when it is strictly in front of the camera and within the
vertical and horizontal half-angles. -/
def inFrustum (camPos : Vec3) (a t : ℚ) (v : Vec3) : Prop :=
  0 < camPos.z - v.z ∧
  |v.y - camPos.y| ≤ t * (camPos.z - v.z) ∧
  |v.x - camPos.x| ≤ a * t * (camPos.z - v.z)

instance (camPos : Vec3) (a t : ℚ) (v : Vec3) :
    Decidable (inFrustum camPos a t v) := by
  unfold inFrustum; infer_instance

/-- A point lies in (the closed) box `b`, componentwise. -/
def inBox (b : Box3) (v : Vec3) : Prop :=
  b.min.x ≤ v.x ∧ v.x ≤ b.max.x ∧
  b.min.y ≤ v.y ∧ v.y ≤ b.max.y ∧
  b.min.z ≤ v.z ∧ v.z ≤ b.max.z

instance (b : Box3) (v : Vec3) : Decidable (inBox b v) := by
  unfold inBox; infer_instance

/-- The geometry-centering and mesh-scaling step of `loadSTLModel`
(configurator.js lines 494-503):
```
geometry.computeBoundingBox();
const box = geometry.boundingBox;
const center = box.getCenter(new THREE.Vector3());
geometry.translate(-center.x, -center.y, -center.z);
const size = box.getSize(new THREE.Vector3());
const maxDim = Math.max(size.x, size.y, size.z);
const scale = 100 / maxDim;
this.model.scale.setScalar(scale);
```
Returns the translated geometry's bounding box, the scalar scale, and the
world-space bounding box of the displayed mesh (the translated box scaled
by `scale`). -/
def loadSTLTransform (g : Box3) : Box3 × ℚ × Box3 :=
  let center := boxCenter g
  let translated : Box3 :=
    ⟨⟨g.min.x - center.x, g.min.y - center.y, g.min.z - center.z⟩,
     ⟨g.max.x - center.x, g.max.y - center.y, g.max.z - center.z⟩⟩
  let scale := 100 / boxMaxDim g
  let world : Box3 :=
    ⟨⟨scale * translated.min.x, scale * translated.min.y, scale * translated.min.z⟩,
     ⟨scale * translated.max.x, scale * translated.max.y, scale * translated.max.z⟩⟩
  (translated, scale, world)

/-! ## Concrete fixtures used by witnesses and counterexamples -/

/-- A 10x10x10 bounding box centered at the origin (the spec's scenario
object). -/
def cube10 : Box3 := ⟨⟨-5, -5, -5⟩, ⟨5, 5, 5⟩⟩

/-- A camera state with everything at the origin. -/
def st0 : CameraState := ⟨⟨0, 0, 0⟩, ⟨0, 0, 0⟩, ⟨0, 0, 0⟩⟩

/-! ## Helper lemmas -/

/-- The non-trivial branch of either fit writes a pose that does not
depend on the incoming pose, so each fit is idempotent unconditionally. -/
theorem p0_fit_overwrites (m : Option Box3) (r : Bool) (t w h : ℚ)
    (st st' : CameraState) :
    p0FitCameraToModel m r t w h st = st ∨
      p0FitCameraToModel m r t w h st = p0FitCameraToModel m r t w h st' := by
  cases m with
  | none => exact Or.inl rfl
  | some box =>
    unfold p0FitCameraToModel
    by_cases hr : r = false
    · simp [hr]
    · by_cases hg : (jsIsNaN (jsDiv w h) || jsEqZero (jsDiv w h)) = true
      · simp [hr, hg]
      · simp [hr, hg]

/-- Each size component is at most the maximal dimension. -/
theorem size_le_maxDim (b : Box3) :
    (boxSize b).x ≤ boxMaxDim b ∧ (boxSize b).y ≤ boxMaxDim b ∧
      (boxSize b).z ≤ boxMaxDim b :=
  ⟨le_max_left _ _,
   le_trans (le_max_left _ _) (le_max_right _ _),
   le_trans (le_max_right _ _) (le_max_right _ _)⟩

/-! ## C5: absent model is a no-op -/

/-- C5: For every camera pose, if the model argument is absent when the
fit operation is invoked, the camera position, orientation (look-at
target), and orbit-control target are unchanged: both fit variants
return early on a missing model, leaving the whole camera state intact. -/
theorem absent_model_fit_noop (t w h : ℚ) (r : Bool) (st : CameraState) :
    cfgFitCameraToModel none t st = st ∧
      p0FitCameraToModel none r t w h st = st :=
  ⟨rfl, rfl⟩

/-! ## C6: the fit operation is idempotent -/

/-- C6: For all valid inputs (model present, positive FOV so that
`tan(fov/2) = t > 0`, non-zero viewport), invoking either fit twice in
succession with the model, camera intrinsics and viewport unchanged
yields the same camera position and look-at target as invoking it once:
the written pose depends only on the model box, `t` and the viewport,
never on the incoming pose. -/
theorem fit_idempotent (box : Box3) (t w h : ℚ) (st : CameraState)
    (ht : 0 < t) (hw : 0 < w) (hh : 0 < h) :
    cfgFitCameraToModel (some box) t (cfgFitCameraToModel (some box) t st)
        = cfgFitCameraToModel (some box) t st ∧
      p0FitCameraToModel (some box) true t w h
          (p0FitCameraToModel (some box) true t w h st)
        = p0FitCameraToModel (some box) true t w h st := by
  constructor
  · rfl
  · rcases p0_fit_overwrites (some box) true t w h
      (p0FitCameraToModel (some box) true t w h st) st with hcase | hcase
    · exact hcase
    · exact hcase

/-- Witness for C6 at the spec's scenario inputs. -/
theorem fit_idempotent_witness :
    cfgFitCameraToModel (some cube10) 1 (cfgFitCameraToModel (some cube10) 1 st0)
        = cfgFitCameraToModel (some cube10) 1 st0 ∧
      p0FitCameraToModel (some cube10) true 1 800 600
          (p0FitCameraToModel (some cube10) true 1 800 600 st0)
        = p0FitCameraToModel (some cube10) true 1 800 600 st0 :=
  fit_idempotent cube10 1 800 600 st0 (by norm_num) (by norm_num) (by norm_num)

/-! ## C7: the look-at target is the box center, mirrored into controls -/

/-- C7: After a fit on a present model with a non-degenerate viewport,
the camera's look-at target equals the center of the model's world-space
bounding box, and the orbit-controls target is the same point — in both
variants. -/
theorem fit_targets_center (box : Box3) (t w h : ℚ) (st : CameraState)
    (hw : 0 < w) (hh : 0 < h) :
    (p0FitCameraToModel (some box) true t w h st).lookTarget = boxCenter box ∧
      (p0FitCameraToModel (some box) true t w h st).controlsTarget
        = boxCenter box ∧
      (cfgFitCameraToModel (some box) t st).lookTarget = boxCenter box ∧
      (cfgFitCameraToModel (some box) t st).controlsTarget = boxCenter box := by
  have haspect : jsDiv w h = JsNum.fin (w / h) := by
    unfold jsDiv
    rw [if_neg hh.ne']
  have hq : (0 : ℚ) < w / h := div_pos hw hh
  refine ⟨?_, ?_, rfl, rfl⟩ <;>
    simp [p0FitCameraToModel, haspect, jsIsNaN, jsEqZero, hq.ne']

/-- Witness for C7 at the spec's scenario inputs. -/
theorem fit_targets_center_witness :
    (p0FitCameraToModel (some cube10) true 1 800 600 st0).lookTarget
        = boxCenter cube10 ∧
      (p0FitCameraToModel (some cube10) true 1 800 600 st0).controlsTarget
        = boxCenter cube10 ∧
      (cfgFitCameraToModel (some cube10) 1 st0).lookTarget = boxCenter cube10 ∧
      (cfgFitCameraToModel (some cube10) 1 st0).controlsTarget
        = boxCenter cube10 :=
  fit_targets_center cube10 1 800 600 st0 (by norm_num) (by norm_num)

/-! ## C10: STL load centers the geometry and normalizes to 100 units -/

/-- Scaling a box (about any point `c`) by a non-negative factor `s`
scales its maximal dimension by `s`. -/
theorem boxMaxDim_scaled_box (s cx cy cz : ℚ) (hs : 0 ≤ s) (b : Box3) :
    boxMaxDim ⟨⟨s * (b.min.x - cx), s * (b.min.y - cy), s * (b.min.z - cz)⟩,
               ⟨s * (b.max.x - cx), s * (b.max.y - cy), s * (b.max.z - cz)⟩⟩
      = s * boxMaxDim b := by
  simp only [boxMaxDim, boxSize]
  rw [show s * (b.max.x - cx) - s * (b.min.x - cx)
        = s * (b.max.x - b.min.x) from by ring,
      show s * (b.max.y - cy) - s * (b.min.y - cy)
        = s * (b.max.y - b.min.y) from by ring,
      show s * (b.max.z - cz) - s * (b.min.z - cz)
        = s * (b.max.z - b.min.z) from by ring,
      ← mul_max_of_nonneg _ _ hs, ← mul_max_of_nonneg _ _ hs]

/-- C10: In the STL loading path, for every loaded geometry with positive
maximum bounding-box dimension, the geometry is translated so its
bounding-box center is at the origin and the mesh is uniformly scaled by
`100 / maxDim`, so the displayed model's largest world-space bounding-box
dimension is exactly 100 regardless of the geometry's actual size. -/
theorem stl_load_centers_and_scales (g : Box3) (hm : 0 < boxMaxDim g) :
    boxCenter (loadSTLTransform g).1 = ⟨0, 0, 0⟩ ∧
      (loadSTLTransform g).2.1 = 100 / boxMaxDim g ∧
      boxMaxDim (loadSTLTransform g).2.2 = 100 := by
  have hscale : (0 : ℚ) ≤ 100 / boxMaxDim g := by positivity
  refine ⟨?_, rfl, ?_⟩
  · simp only [loadSTLTransform, boxCenter, Vec3.mk.injEq]
    exact ⟨by ring, by ring, by ring⟩
  · have hrfl : (loadSTLTransform g).2.2 =
        ⟨⟨(100 / boxMaxDim g) * (g.min.x - (boxCenter g).x),
          (100 / boxMaxDim g) * (g.min.y - (boxCenter g).y),
          (100 / boxMaxDim g) * (g.min.z - (boxCenter g).z)⟩,
         ⟨(100 / boxMaxDim g) * (g.max.x - (boxCenter g).x),
          (100 / boxMaxDim g) * (g.max.y - (boxCenter g).y),
          (100 / boxMaxDim g) * (g.max.z - (boxCenter g).z)⟩⟩ := rfl
    rw [hrfl, boxMaxDim_scaled_box _ _ _ _ hscale g]
    field_simp

/-- Witness for C10 on a 4×2×1 geometry box. -/
theorem stl_load_centers_and_scales_witness :
    boxCenter (loadSTLTransform ⟨⟨0, 0, 0⟩, ⟨4, 2, 1⟩⟩).1 = ⟨0, 0, 0⟩ ∧
      (loadSTLTransform ⟨⟨0, 0, 0⟩, ⟨4, 2, 1⟩⟩).2.1
        = 100 / boxMaxDim ⟨⟨0, 0, 0⟩, ⟨4, 2, 1⟩⟩ ∧
      boxMaxDim (loadSTLTransform ⟨⟨0, 0, 0⟩, ⟨4, 2, 1⟩⟩).2.2 = 100 :=
  stl_load_centers_and_scales ⟨⟨0, 0, 0⟩, ⟨4, 2, 1⟩⟩
    (by norm_num [boxMaxDim, boxSize])

/-! ## C4: the zero-viewport guard -/

/-- C4 counterexample: with a present 10-cube, `t = tan(fov/2) = 1`,
viewport `300 × 0` (height zero), the part_000 fit is NOT a no-op: the
JavaScript aspect `300 / 0` is `+Infinity`, which passes the
`isNaN(aspect) || aspect === 0` guard, takes the `aspect > 1` divisor and
moves the camera. -/
theorem zero_height_fit_moves_camera :
    p0FitCameraToModel (some cube10) true 1 300 0 st0 ≠ st0 := by
  norm_num [p0FitCameraToModel, p0CameraZ, jsDiv, jsIsNaN, jsEqZero,
    jsGtOne, jsFinToQ, boxMaxDim, boxSize, boxCenter, cube10, st0,
    CameraState.mk.injEq, Vec3.mk.injEq]

/-- C4 amended: the fit is a no-op when the viewport WIDTH is zero (the
aspect is then `0` or `NaN` and the guard fires), but when only the
HEIGHT is zero and the width is positive, the aspect is `+Infinity`, the
guard passes, and the fit proceeds with the `aspect > 1` divisor,
changing the pose. -/
theorem zero_viewport_guard (box : Box3) (t w : ℚ) (st : CameraState)
    (hw : 0 < w) :
    (∀ (model : Option Box3) (r : Bool) (t' h' : ℚ) (st' : CameraState),
        p0FitCameraToModel model r t' 0 h' st' = st') ∧
      p0FitCameraToModel (some box) true t w 0 st =
        { position := ⟨p0CameraZ (boxMaxDim box) JsNum.posInf t,
                       p0CameraZ (boxMaxDim box) JsNum.posInf t * (7 / 10),
                       p0CameraZ (boxMaxDim box) JsNum.posInf t⟩
          lookTarget := boxCenter box
          controlsTarget := boxCenter box } := by
  constructor
  · intro model r t' h' st'
    cases model with
    | none => rfl
    | some b =>
      unfold p0FitCameraToModel
      by_cases hr : r = false
      · simp [hr]
      · by_cases hh : h' = 0
        · simp [hr, hh, jsDiv, jsIsNaN]
        · simp [hr, jsDiv, hh, jsIsNaN, jsEqZero]
  · have haspect : jsDiv w 0 = JsNum.posInf := by
      unfold jsDiv
      rw [if_pos rfl, if_neg hw.ne', if_pos hw]
    simp [p0FitCameraToModel, haspect, jsIsNaN, jsEqZero]

/-- Witness for C4's amended theorem at width 300, height 0. -/
theorem zero_viewport_guard_witness :
    p0FitCameraToModel (some cube10) true 1 300 0 st0 =
      { position := ⟨p0CameraZ (boxMaxDim cube10) JsNum.posInf 1,
                     p0CameraZ (boxMaxDim cube10) JsNum.posInf 1 * (7 / 10),
                     p0CameraZ (boxMaxDim cube10) JsNum.posInf 1⟩
        lookTarget := boxCenter cube10
        controlsTarget := boxCenter cube10 } :=
  (zero_viewport_guard cube10 1 300 st0 (by norm_num)).2

/-! ## C9: totality and which degenerate inputs are actually no-ops -/

/-- C9 counterexample: a zero-size object (degenerate box at `(1,1,1)`)
is NOT absorbed as a no-op: the configurator.js fit computes
`maxDim = 0`, `cameraZ = 0`, and moves the camera to the box center. -/
theorem zero_size_fit_not_noop :
    cfgFitCameraToModel (some ⟨⟨1, 1, 1⟩, ⟨1, 1, 1⟩⟩) 1 st0 ≠ st0 := by
  norm_num [cfgFitCameraToModel, cfgCameraZ, boxMaxDim, boxSize, boxCenter,
    st0, CameraState.mk.injEq, Vec3.mk.injEq]

/-- C9 amended: no invocation of either fit can fail (both are total
functions of their inputs); the absent-model guard (both variants) and
the zero-width guard (internal variant: aspect `0` or `NaN`) are silent
no-ops; but a zero-size object is NOT a no-op — the camera is moved to
the object's center at offset zero — and a zero-height viewport with
positive width passes the internal guard as `+Infinity` aspect. -/
theorem fit_degenerate_input_behavior :
    (∀ (t : ℚ) (st : CameraState), cfgFitCameraToModel none t st = st) ∧
      (∀ (r : Bool) (t w h : ℚ) (st : CameraState),
        p0FitCameraToModel none r t w h st = st) ∧
      (∀ (model : Option Box3) (r : Bool) (t h : ℚ) (st : CameraState),
        p0FitCameraToModel model r t 0 h st = st) ∧
      ∀ (c : Vec3) (t : ℚ) (st : CameraState),
        cfgFitCameraToModel (some ⟨c, c⟩) t st =
          { position := c, lookTarget := c, controlsTarget := c } := by
  refine ⟨fun t st => rfl, fun r t w h st => rfl, ?_, ?_⟩
  · intro model r t h st
    cases model with
    | none => rfl
    | some b =>
      unfold p0FitCameraToModel
      by_cases hr : r = false
      · simp [hr]
      · by_cases hh : h = 0
        · simp [hr, hh, jsDiv, jsIsNaN]
        · simp [hr, jsDiv, hh, jsIsNaN, jsEqZero]
  · intro c t st
    obtain ⟨x, y, z⟩ := c
    simp only [cfgFitCameraToModel, cfgCameraZ, boxCenter, boxMaxDim,
      boxSize, CameraState.mk.injEq, Vec3.mk.injEq]
    norm_num

/-! ## C3: what the resize handlers actually do -/

/-- A concrete viewer state: camera at the origin, a 10-cube loaded,
renderer at 800×600. -/
def vs800 : ViewerState := ⟨st0, JsNum.fin (4 / 3), 800, 600, some cube10⟩

/-- C3 counterexample: resizing the configurator.js viewer from 800×600
to 400×600 with a 10-cube loaded leaves the camera pose untouched (it is
still the origin pose), even though the fit operation applied to the
loaded model would have produced a different pose — `onWindowResize`
never re-invokes the fit. -/
theorem cfg_resize_does_not_refit :
    (cfgOnWindowResize 400 600 vs800).cam = st0 ∧
      cfgFitCameraToModel vs800.currentModel 1
          (cfgOnWindowResize 400 600 vs800).cam ≠ st0 := by
  constructor
  · rfl
  · norm_num [cfgOnWindowResize, cfgFitCameraToModel, cfgCameraZ, vs800,
      boxMaxDim, boxSize, boxCenter, cube10, st0, CameraState.mk.injEq,
      Vec3.mk.injEq]

/-- C3 amended: the part_000 `handleResize` recomputes the aspect ratio
and re-invokes the fit against the current model (for non-zero canvas
sizes), preserving framing; the configurator.js `onWindowResize` only
recomputes the projection aspect and renderer size and never re-invokes
the fit, leaving the camera pose exactly as it was. -/
theorem resize_handlers_behavior (s : ViewerState) (w h t : ℚ)
    (hw : w ≠ 0) (hh : h ≠ 0) :
    (p0HandleResize w h t s).cameraAspect = jsDiv w h ∧
      (p0HandleResize w h t s).cam
        = p0FitCameraToModel s.currentModel true t w h s.cam ∧
      (cfgOnWindowResize w h s).cameraAspect = jsDiv w h ∧
      (cfgOnWindowResize w h s).cam = s.cam := by
  unfold p0HandleResize cfgOnWindowResize
  simp [hw, hh]

/-- Witness for C3's amended theorem at 400×600. -/
theorem resize_handlers_behavior_witness :
    (p0HandleResize 400 600 1 vs800).cameraAspect = jsDiv 400 600 ∧
      (p0HandleResize 400 600 1 vs800).cam
        = p0FitCameraToModel vs800.currentModel true 1 400 600 vs800.cam ∧
      (cfgOnWindowResize 400 600 vs800).cameraAspect = jsDiv 400 600 ∧
      (cfgOnWindowResize 400 600 vs800).cam = vs800.cam :=
  resize_handlers_behavior vs800 400 600 1 (by norm_num) (by norm_num)

/-! ## C1: the camera-distance formula -/

/-- C1 counterexample: for a 10-cube, `t = tan(fov/2) = 1` and a 300×600
viewport (aspect `1/2`), the spec's aspect-branched formula yields `15`,
but the configurator.js fit — one of the two implementations of "the fit
operation" — computes an offset of `15/2`: its distance has no aspect
dependence at all. -/
theorem spec_distance_formula_counterexample :
    (cfgFitCameraToModel (some cube10) 1 st0).position.z
        - (boxCenter cube10).z = 15 / 2 ∧
      specFitDistance (boxMaxDim cube10) ((300 : ℚ) / 600) 1 = 15 ∧
      (15 / 2 : ℚ) ≠ 15 := by
  refine ⟨?_, ?_, by norm_num⟩
  · norm_num [cfgFitCameraToModel, cfgCameraZ, boxMaxDim, boxSize,
      boxCenter, cube10, st0]
  · norm_num [specFitDistance, boxMaxDim, boxSize, cube10]

/-- C1 amended: the spec's formula
`|maxDim / (aspect > 1 ? 2 : 2*aspect) / tan(fovRad/2)| * 1.5` is exactly
what the part_000 fit computes (for a viewport with positive width and
height), while the configurator.js fit computes
`|maxDim / 2 / tan(fovRad/2)| * 1.5` as the offset from the box center,
with no aspect-ratio branch (the two agree only when aspect > 1). -/
theorem fit_distance_formulas (box : Box3) (t w h : ℚ) (st : CameraState)
    (ht : 0 < t) (hw : 0 < w) (hh : 0 < h) :
    (p0FitCameraToModel (some box) true t w h st).position.z
        = specFitDistance (boxMaxDim box) (w / h) t ∧
      (cfgFitCameraToModel (some box) t st).position.z
        = (boxCenter box).z + |boxMaxDim box / 2 / t| * (3 / 2) := by
  refine ⟨?_, rfl⟩
  have haspect : jsDiv w h = JsNum.fin (w / h) := by
    unfold jsDiv
    rw [if_neg hh.ne']
  have hq : (0 : ℚ) < w / h := div_pos hw hh
  simp [p0FitCameraToModel, haspect, jsIsNaN, jsEqZero, hq.ne',
    p0CameraZ, jsGtOne, jsFinToQ, specFitDistance]

/-- Witness for C1's amended theorem on the 10-cube at `t = 1`,
viewport 300×600. -/
theorem fit_distance_formulas_witness :
    (p0FitCameraToModel (some cube10) true 1 300 600 st0).position.z
        = specFitDistance (boxMaxDim cube10) ((300 : ℚ) / 600) 1 ∧
      (cfgFitCameraToModel (some cube10) 1 st0).position.z
        = (boxCenter cube10).z + |boxMaxDim cube10 / 2 / 1| * (3 / 2) :=
  fit_distance_formulas cube10 1 300 600 st0 (by norm_num) (by norm_num)
    (by norm_num)

/-! ## C8: the spec's concrete scenario -/

/-- C8: For the 10×10×10 box centered at the origin, a camera with
vertical FOV 45° (so `t = tan(22.5°) ≈ 0.4142`), and an 800×600
viewport, both fits compute the offset `(10/2)/t * 1.5` (the aspect
`4/3 > 1` selects the divisor-2 branch in part_000) and set the look-at
target to the origin; for any `t` in the interval `(2/5, 5/12)` — which
contains `tan(22.5°) = √2 - 1` — the offset lies strictly between 18
and 19, matching the spec's `≈ 18.1`. -/
theorem scenario_cube_45fov (t : ℚ) (st : CameraState) (ht : 0 < t) :
    (p0FitCameraToModel (some cube10) true t 800 600 st).position.z
        = 10 / 2 / t * (3 / 2) ∧
      (p0FitCameraToModel (some cube10) true t 800 600 st).lookTarget
        = ⟨0, 0, 0⟩ ∧
      (p0FitCameraToModel (some cube10) true t 800 600 st).controlsTarget
        = ⟨0, 0, 0⟩ ∧
      (cfgFitCameraToModel (some cube10) t st).position.z
        = 0 + 10 / 2 / t * (3 / 2) ∧
      (cfgFitCameraToModel (some cube10) t st).lookTarget = ⟨0, 0, 0⟩ ∧
      (2 / 5 < t → t < 5 / 12 →
        18 < (p0FitCameraToModel (some cube10) true t 800 600 st).position.z ∧
          (p0FitCameraToModel (some cube10) true t 800 600 st).position.z
            < 19) := by
  have haspect : jsDiv 800 600 = JsNum.fin (4 / 3) := by
    unfold jsDiv
    norm_num
  have habs : |(5 : ℚ) / t| = 5 / t := abs_of_pos (by positivity)
  have hz : (p0FitCameraToModel (some cube10) true t 800 600 st).position.z
      = 10 / 2 / t * (3 / 2) := by
    norm_num [p0FitCameraToModel, haspect, jsIsNaN, jsEqZero, p0CameraZ,
      jsGtOne, jsFinToQ, boxMaxDim, boxSize, cube10, habs]
  refine ⟨hz, ?_, ?_, ?_, ?_, ?_⟩
  · simp [p0FitCameraToModel, haspect, jsIsNaN, jsEqZero, boxCenter, cube10]
  · simp [p0FitCameraToModel, haspect, jsIsNaN, jsEqZero, boxCenter, cube10]
  · norm_num [cfgFitCameraToModel, cfgCameraZ, boxCenter, boxMaxDim, boxSize,
      cube10, habs]
  · simp [cfgFitCameraToModel, boxCenter, cube10]
  · intro hlo hhi
    rw [hz]
    have h1 : 10 / 2 / t * (3 / 2) = 15 / (2 * t) := by
      field_simp
      ring
    rw [h1]
    constructor
    · rw [lt_div_iff₀ (by positivity)]
      linarith
    · rw [div_lt_iff₀ (by positivity)]
      linarith

/-- Witness for C8 at `t = 41/100` (a rational approximation of
`tan(22.5°)` inside the stated interval). -/
theorem scenario_cube_45fov_witness :
    (p0FitCameraToModel (some cube10) true (41 / 100) 800 600 st0).position.z
        = 10 / 2 / (41 / 100) * (3 / 2) ∧
      (p0FitCameraToModel (some cube10) true (41 / 100) 800 600 st0).lookTarget
        = ⟨0, 0, 0⟩ ∧
      (p0FitCameraToModel (some cube10) true (41 / 100) 800 600
          st0).controlsTarget = ⟨0, 0, 0⟩ ∧
      (cfgFitCameraToModel (some cube10) (41 / 100) st0).position.z
        = 0 + 10 / 2 / (41 / 100) * (3 / 2) ∧
      (cfgFitCameraToModel (some cube10) (41 / 100) st0).lookTarget
        = ⟨0, 0, 0⟩ ∧
      (2 / 5 < (41 / 100 : ℚ) → (41 / 100 : ℚ) < 5 / 12 →
        18 < (p0FitCameraToModel (some cube10) true (41 / 100) 800 600
            st0).position.z ∧
          (p0FitCameraToModel (some cube10) true (41 / 100) 800 600
            st0).position.z < 19) :=
  scenario_cube_45fov (41 / 100) st0 (by norm_num)

/-! ## C2: bounding box vs. view frustum -/

/-- C2 counterexample: for the 10-cube centered at the origin and a FOV
with `tan(fov/2) = 2` (a wide but legal FOV of about 127°), the
configurator.js fit places the camera at `z = |10/2/2| * 1.5 = 3.75` —
inside the box — so the box vertex `(5,5,5)` is behind the camera and
projects outside the frustum. -/
theorem frustum_containment_counterexample :
    inBox cube10 ⟨5, 5, 5⟩ ∧
      0 < boxMaxDim cube10 ∧
      ¬inFrustum ((cfgFitCameraToModel (some cube10) 2 st0).position)
        (4 / 3) 2 ⟨5, 5, 5⟩ := by
  have habs : |(5 : ℚ) / 2| = 5 / 2 := abs_of_pos (by norm_num)
  refine ⟨by norm_num [inBox, cube10], by norm_num [boxMaxDim, boxSize, cube10], ?_⟩
  norm_num [inFrustum, cfgFitCameraToModel, cfgCameraZ, boxCenter,
    boxMaxDim, boxSize, cube10, st0, habs]

/-- Containment of a padded box in the frustum of a `-z`-looking camera:
with half-angle tangent `0 < t ≤ 1/2`, aspect `a ≥ 1`, and offset `Z`
satisfying `Z * 4t = 3m` (the padded distance), every point within `m/2`
of the look-at point on each axis is inside the frustum. -/
theorem frustum_aux (m t a cx cy cz Z : ℚ) (v : Vec3)
    (ht : 0 < t) (ht2 : t ≤ 1 / 2) (ha : 1 ≤ a) (hm : 0 < m)
    (hZ : Z * (4 * t) = 3 * m)
    (hx : |v.x - cx| ≤ m / 2) (hy : |v.y - cy| ≤ m / 2)
    (hz : |v.z - cz| ≤ m / 2) :
    inFrustum ⟨cx, cy, cz + Z⟩ a t v := by
  obtain ⟨hx1, hx2⟩ := abs_le.mp hx
  obtain ⟨hy1, hy2⟩ := abs_le.mp hy
  obtain ⟨hz1, hz2⟩ := abs_le.mp hz
  have htZ : t * Z = 3 * m / 4 := by linear_combination hZ / 4
  have hint1 : t * (-(m / 2)) ≤ t * (cz - v.z) :=
    mul_le_mul_of_nonneg_left (by linarith) ht.le
  have hint2 : 0 ≤ (1 / 2 - t) * m :=
    mul_nonneg (by linarith) hm.le
  have hkey : m / 2 ≤ t * ((cz + Z) - v.z) := by nlinarith
  have hdepth : 0 < (cz + Z) - v.z := by
    rcases le_or_lt ((cz + Z) - v.z) 0 with hle | hlt
    · exfalso
      have : t * ((cz + Z) - v.z) ≤ 0 := mul_nonpos_of_nonneg_of_nonpos ht.le hle
      linarith
    · exact hlt
  have htd : 0 ≤ t * ((cz + Z) - v.z) := by linarith
  have hax : t * ((cz + Z) - v.z) ≤ a * (t * ((cz + Z) - v.z)) :=
    le_mul_of_one_le_left htd ha
  unfold inFrustum
  dsimp only
  refine ⟨hdepth, ?_, ?_⟩
  · rw [abs_le]
    constructor <;> linarith
  · rw [abs_le]
    constructor <;> nlinarith [hax, hkey, hx1, hx2]

/-- C2 amended: the universal frustum invariant fails (see the
counterexample: a wide FOV puts the camera inside the box); what holds for
the configurator.js fit is containment under the additional conditions
`tan(fov/2) ≤ 1/2` (vertical FOV at most ≈ 53°) and aspect ratio `≥ 1`:
then every point of the axis-aligned bounding box — in particular every
vertex — lies inside the camera's view frustum at the computed pose. -/
theorem fit_frustum_containment (box : Box3) (a t : ℚ) (st : CameraState)
    (v : Vec3) (ht : 0 < t) (ht2 : t ≤ 1 / 2) (ha : 1 ≤ a)
    (hm : 0 < boxMaxDim box) (hv : inBox box v) :
    inFrustum ((cfgFitCameraToModel (some box) t st).position) a t v := by
  obtain ⟨h1, h2, h3, h4, h5, h6⟩ := hv
  have hpos : (cfgFitCameraToModel (some box) t st).position
      = ⟨(boxCenter box).x, (boxCenter box).y,
         (boxCenter box).z + cfgCameraZ (boxMaxDim box) t⟩ := rfl
  rw [hpos]
  have hsx : box.max.x - box.min.x ≤ boxMaxDim box := (size_le_maxDim box).1
  have hsy : box.max.y - box.min.y ≤ boxMaxDim box := (size_le_maxDim box).2.1
  have hsz : box.max.z - box.min.z ≤ boxMaxDim box := (size_le_maxDim box).2.2
  have hcx : (boxCenter box).x = (box.min.x + box.max.x) / 2 := rfl
  have hcy : (boxCenter box).y = (box.min.y + box.max.y) / 2 := rfl
  have hcz : (boxCenter box).z = (box.min.z + box.max.z) / 2 := rfl
  have hZ : cfgCameraZ (boxMaxDim box) t * (4 * t) = 3 * boxMaxDim box := by
    unfold cfgCameraZ
    rw [abs_of_pos (by positivity)]
    field_simp
    ring
  exact frustum_aux (boxMaxDim box) t a (boxCenter box).x (boxCenter box).y
    (boxCenter box).z (cfgCameraZ (boxMaxDim box) t) v ht ht2 ha hm hZ
    (abs_le.mpr ⟨by rw [hcx]; linarith, by rw [hcx]; linarith⟩)
    (abs_le.mpr ⟨by rw [hcy]; linarith, by rw [hcy]; linarith⟩)
    (abs_le.mpr ⟨by rw [hcz]; linarith, by rw [hcz]; linarith⟩)

/-- Witness for C2's amended theorem: the 10-cube, `t = 1/2`, aspect 1,
vertex `(5,5,5)` (which sits exactly on the frustum boundary). -/
theorem fit_frustum_containment_witness :
    inFrustum ((cfgFitCameraToModel (some cube10) (1 / 2) st0).position)
      1 (1 / 2) ⟨5, 5, 5⟩ :=
  fit_frustum_containment cube10 1 (1 / 2) st0 ⟨5, 5, 5⟩ (by norm_num)
    (by norm_num) (by norm_num) (by norm_num [boxMaxDim, boxSize, cube10])
    (by norm_num [inBox, cube10])

/-! ## C7 revisited: the stale-target case -/

/-- A camera state whose pose and targets are away from the origin. -/
def stA : CameraState := ⟨⟨1, 2, 3⟩, ⟨9, 9, 9⟩, ⟨8, 8, 8⟩⟩

/-- C7 counterexample: a fit on a present model does NOT always leave the
look-at target at the box center — with a zero-width viewport the
internal variant's aspect guard fires and returns early, so a stale
target (here `(9,9,9)` against center `(0,0,0)`) survives the call. -/
theorem fit_target_stale_counterexample :
    (p0FitCameraToModel (some cube10) true 1 0 600 stA).lookTarget
        ≠ boxCenter cube10 ∧
      (p0FitCameraToModel (some cube10) true 1 0 600 stA).controlsTarget
        ≠ boxCenter cube10 := by
  constructor <;>
    norm_num [p0FitCameraToModel, jsDiv, jsIsNaN, jsEqZero, stA,
      boxCenter, cube10, Vec3.mk.injEq]
